import Mathlib

set_option maxHeartbeats 1000000

namespace FinancePipeline

/-- Model of JavaScript runtime values as they flow through the finance route
(request fields, tool-call payloads, JSON bodies).  Numeric literals in the
payloads under verification are integers, so numbers are modelled as `Int`. -/
inductive JsVal where
  | undef
  | null
  | bool (b : Bool)
  | num (n : Int)
  | str (s : String)
  | arr (elems : List JsVal)
  | obj (fields : List (String × JsVal))
  deriving Repr

mutual

/-- Decidable equality on `JsVal` (the automatic derivation does not handle
the nested `List` occurrences). -/
def decEqVal : (a b : JsVal) → Decidable (a = b)
  | .undef, .undef => isTrue rfl
  | .null, .null => isTrue rfl
  | .bool x, .bool y =>
    if h : x = y then isTrue (by rw [h]) else isFalse (fun hh => h (JsVal.bool.inj hh))
  | .num x, .num y =>
    if h : x = y then isTrue (by rw [h]) else isFalse (fun hh => h (JsVal.num.inj hh))
  | .str x, .str y =>
    if h : x = y then isTrue (by rw [h]) else isFalse (fun hh => h (JsVal.str.inj hh))
  | .arr xs, .arr ys =>
    match decEqList xs ys with
    | isTrue h => isTrue (by rw [h])
    | isFalse h => isFalse (fun hh => h (JsVal.arr.inj hh))
  | .obj fs, .obj gs =>
    match decEqFields fs gs with
    | isTrue h => isTrue (by rw [h])
    | isFalse h => isFalse (fun hh => h (JsVal.obj.inj hh))
  | .undef, .null | .undef, .bool _ | .undef, .num _ | .undef, .str _
  | .undef, .arr _ | .undef, .obj _ => isFalse nofun
  | .null, .undef | .null, .bool _ | .null, .num _ | .null, .str _
  | .null, .arr _ | .null, .obj _ => isFalse nofun
  | .bool _, .undef | .bool _, .null | .bool _, .num _ | .bool _, .str _
  | .bool _, .arr _ | .bool _, .obj _ => isFalse nofun
  | .num _, .undef | .num _, .null | .num _, .bool _ | .num _, .str _
  | .num _, .arr _ | .num _, .obj _ => isFalse nofun
  | .str _, .undef | .str _, .null | .str _, .bool _ | .str _, .num _
  | .str _, .arr _ | .str _, .obj _ => isFalse nofun
  | .arr _, .undef | .arr _, .null | .arr _, .bool _ | .arr _, .num _
  | .arr _, .str _ | .arr _, .obj _ => isFalse nofun
  | .obj _, .undef | .obj _, .null | .obj _, .bool _ | .obj _, .num _
  | .obj _, .str _ | .obj _, .arr _ => isFalse nofun

/-- Decidable equality on lists of `JsVal`. -/
def decEqList : (xs ys : List JsVal) → Decidable (xs = ys)
  | [], [] => isTrue rfl
  | [], _ :: _ => isFalse nofun
  | _ :: _, [] => isFalse nofun
  | x :: xs, y :: ys =>
    match decEqVal x y with
    | isFalse h => isFalse (fun hh => h (List.cons.inj hh).1)
    | isTrue h1 =>
      match decEqList xs ys with
      | isTrue h2 => isTrue (by rw [h1, h2])
      | isFalse h2 => isFalse (fun hh => h2 (List.cons.inj hh).2)

/-- Decidable equality on object field lists. -/
def decEqFields : (fs gs : List (String × JsVal)) → Decidable (fs = gs)
  | [], [] => isTrue rfl
  | [], _ :: _ => isFalse nofun
  | _ :: _, [] => isFalse nofun
  | (k, v) :: fs, (k', v') :: gs =>
    if hk : k = k' then
      match decEqVal v v' with
      | isFalse h => isFalse (fun hh => h (congrArg Prod.snd (List.cons.inj hh).1))
      | isTrue hv =>
        match decEqFields fs gs with
        | isTrue h2 => isTrue (by rw [hk, hv, h2])
        | isFalse h2 => isFalse (fun hh => h2 (List.cons.inj hh).2)
    else isFalse (fun hh => hk (congrArg Prod.fst (List.cons.inj hh).1))

end

instance : DecidableEq JsVal := decEqVal

/-- JavaScript truthiness: `undefined`, `null`, `false`, `0` and the empty
string are falsy; every object and array is truthy. -/
def truthy : JsVal → Bool
  | .undef => false
  | .null => false
  | .bool b => b
  | .num n => n != 0
  | .str s => s != ""
  | .arr _ => true
  | .obj _ => true

/-- A value is nullish (`null` or `undefined`) — the values the `??` operator
skips and on which property access throws. -/
def nullish : JsVal → Bool
  | .undef => true
  | .null => true
  | _ => false

/-- First binding of a key in an object field list (objects never carry
duplicate keys in JS; we read the first occurrence). -/
def lookupKey (fs : List (String × JsVal)) (k : String) : JsVal :=
  match fs.find? (fun p => p.1 = k) with
  | some p => p.2
  | none => (.undef)

/-- Property write on an object field list: update in place when the key is
present (JS keeps the original insertion position), append otherwise. -/
def setKey : List (String × JsVal) → String → JsVal → List (String × JsVal)
  | [], k, v => [(k, v)]
  | (k', v') :: rest, k, v =>
    if k' = k then (k, v) :: rest else (k', v') :: setKey rest k v

/-- Property read that never throws: returns the field on objects and
`undefined` on every non-object (the caller guarantees the base is not
nullish). -/
def jsGetD : JsVal → String → JsVal
  | .obj fs, k => lookupKey fs k
  | _, _ => (.undef)

/-- Property read as JavaScript performs it: a `TypeError` (modelled as
`.error ()`) when the base is `null`/`undefined`, otherwise `jsGetD`. -/
def getProp (v : JsVal) (k : String) : Except Unit JsVal :=
  if nullish v then .error () else .ok (jsGetD v k)

/-- Property write `v[k] = x`: only meaningful on objects; non-objects are
returned unchanged (call sites in the model only write to objects). -/
def jsSetProp (v : JsVal) (k : String) (x : JsVal) : JsVal :=
  match v with
  | .obj fs => .obj (setKey fs k x)
  | v => v

/-- The JavaScript `a || b` operator: first operand when truthy, else the
second. -/
def jsOr (a b : JsVal) : JsVal := if truthy a then a else b

mutual

/-- JavaScript `String(v)` / template-literal coercion. -/
def jsToString : JsVal → String
  | .undef => "undefined"
  | .null => "null"
  | .bool true => "true"
  | .bool false => "false"
  | .num n => toString n
  | .str s => s
  | .arr xs => jsArrJoin xs
  | .obj _ => "[object Object]"

/-- `Array.prototype.toString` = `join(",")`, rendering nullish elements as
the empty string. -/
def jsArrJoin : List JsVal → String
  | [] => ""
  | [x] =>
    match x with
    | .undef => ""
    | .null => ""
    | x => jsToString x
  | x :: rest =>
    (match x with
     | .undef => ""
     | .null => ""
     | x => jsToString x) ++ "," ++ jsArrJoin rest

end

/-- `Array.prototype.join(sep)` over model values, rendering nullish elements
as the empty string (used for `.map(c => c.text).join(' ')`). -/
def jsJoin (sep : String) (xs : List JsVal) : String :=
  String.intercalate sep (xs.map fun v =>
    match v with
    | .undef => ""
    | .null => ""
    | v => jsToString v)

/-- Spreading a value into an object literal (`{...v}`): objects contribute
their fields, strings and arrays contribute index-keyed entries, other
primitives contribute nothing. -/
def spreadFields : JsVal → List (String × JsVal)
  | .obj fs => fs
  | .str s => (s.data.enum.map fun p => (toString p.1, JsVal.str (String.singleton p.2)))
  | .arr xs => (xs.enum.map fun p => (toString p.1, p.2))
  | _ => []

/-- `Object.entries`: throws on nullish input, returns the field list of an
object, index-keyed entries of strings and arrays, nothing for other
primitives. -/
def jsObjectEntries : JsVal → Except Unit (List (String × JsVal))
  | .undef => .error ()
  | .null => .error ()
  | v => .ok (spreadFields v)

/-- `Object.keys`, derived from `Object.entries`. -/
def jsObjectKeys (v : JsVal) : Except Unit (List String) :=
  (jsObjectEntries v).map (List.map Prod.fst)

/-- Escape one character for a JSON string literal. -/
def escapeJsonChar (c : Char) : String :=
  if c = '"' then "\\\""
  else if c = '\\' then "\\\\"
  else if c = '\n' then "\\n"
  else if c = '\t' then "\\t"
  else if c = '\r' then "\\r"
  else String.singleton c

/-- Escape a whole string for a JSON string literal. -/
def escapeJson (s : String) : String :=
  String.join (s.data.map escapeJsonChar)

/-- Indentation used by `JSON.stringify(v, null, 2)`. -/
def indentStr (n : Nat) : String := String.mk (List.replicate n ' ')

mutual

/-- `JSON.stringify(v, null, 2)` at indentation level `ind`.  `undefined`
only appears here as an array element, where JSON.stringify renders `null`;
object fields with `undefined` values are dropped by `prettyFields`. -/
def prettyVal (ind : Nat) : JsVal → String
  | .undef => "null"
  | .null => "null"
  | .bool true => "true"
  | .bool false => "false"
  | .num n => toString n
  | .str s => "\"" ++ escapeJson s ++ "\""
  | .arr xs =>
    match prettyElems (ind + 2) xs with
    | [] => "[]"
    | ls => "[\n" ++ String.intercalate ",\n" ls ++ "\n" ++ indentStr ind ++ "]"
  | .obj fs =>
    match prettyFields (ind + 2) fs with
    | [] => "\x7b\x7d"
    | ls => "\x7b\n" ++ String.intercalate ",\n" ls ++ "\n" ++ indentStr ind ++ "\x7d"

/-- Pretty-printed lines of the elements of an array. -/
def prettyElems (ind : Nat) : List JsVal → List String
  | [] => []
  | x :: xs => (indentStr ind ++ prettyVal ind x) :: prettyElems ind xs

/-- Pretty-printed lines of the fields of an object, dropping fields whose
value is `undefined` exactly as JSON.stringify does. -/
def prettyFields (ind : Nat) : List (String × JsVal) → List String
  | [] => []
  | (_, .undef) :: rest => prettyFields ind rest
  | (k, v) :: rest =>
    (indentStr ind ++ "\"" ++ escapeJson k ++ "\": " ++ prettyVal ind v)
      :: prettyFields ind rest

end

/-- Whitespace skipped by the JSON grammar. -/
def skipWs : List Char → List Char
  | c :: rest => if c = ' ' ∨ c = '\n' ∨ c = '\t' ∨ c = '\r' then skipWs rest else c :: rest
  | [] => []

/-- Decode one JSON escape character (the `\uXXXX` form is outside the
modelled fragment). -/
def unescapeChar (c : Char) : Option Char :=
  if c = '"' then some '"'
  else if c = '\\' then some '\\'
  else if c = '/' then some '/'
  else if c = 'n' then some '\n'
  else if c = 't' then some '\t'
  else if c = 'r' then some '\r'
  else if c = 'b' then some (Char.ofNat 8)
  else if c = 'f' then some (Char.ofNat 12)
  else none

/-- Parse the body of a JSON string literal (after the opening quote),
returning the characters and the remaining input. -/
def parseStrChars : List Char → Option (List Char × List Char)
  | [] => none
  | '"' :: rest => some ([], rest)
  | '\\' :: e :: rest =>
    match unescapeChar e with
    | none => none
    | some c => (parseStrChars rest).map (fun p => (c :: p.1, p.2))
  | c :: rest => (parseStrChars rest).map (fun p => (c :: p.1, p.2))

/-- Accumulate a run of decimal digits. -/
def parseDigitsAux (acc : Nat) : List Char → Nat × List Char
  | c :: rest =>
    if c.isDigit then parseDigitsAux (acc * 10 + (c.toNat - 48)) rest
    else (acc, c :: rest)
  | [] => (acc, [])

/-- Parse a non-empty run of decimal digits. -/
def parseDigits : List Char → Option (Nat × List Char)
  | c :: rest => if c.isDigit then some (parseDigitsAux (c.toNat - 48) rest) else none
  | [] => none

mutual

/-- Fuel-bounded recursive-descent parser for the JSON fragment exchanged by
the route (null, booleans, integer numbers, strings, arrays, objects).  The
fuel is instantiated generously by `parseJson`; fractional and exponent
number forms and `\uXXXX` escapes are outside the modelled fragment. -/
def parseVal : Nat → List Char → Option (JsVal × List Char)
  | 0, _ => none
  | fuel + 1, cs =>
    match skipWs cs with
    | 'n' :: 'u' :: 'l' :: 'l' :: rest => some (.null, rest)
    | 't' :: 'r' :: 'u' :: 'e' :: rest => some (.bool true, rest)
    | 'f' :: 'a' :: 'l' :: 's' :: 'e' :: rest => some (.bool false, rest)
    | '"' :: rest => (parseStrChars rest).map fun p => (.str (String.mk p.1), p.2)
    | '[' :: rest =>
      (match skipWs rest with
       | ']' :: r => some (.arr [], r)
       | cs' => (parseElems fuel cs').map fun p => (.arr p.1, p.2))
    | '{' :: rest =>
      (match skipWs rest with
       | '}' :: r => some (.obj [], r)
       | cs' => (parseMembers fuel cs').map fun p => (.obj p.1, p.2))
    | '-' :: rest =>
      (parseDigits rest).map fun p => (.num (-(p.1 : Int)), p.2)
    | c :: rest =>
      if c.isDigit then (parseDigits (c :: rest)).map fun p => (.num (p.1 : Int), p.2)
      else none
    | [] => none

/-- Comma-separated array elements up to the closing bracket. -/
def parseElems : Nat → List Char → Option (List JsVal × List Char)
  | 0, _ => none
  | fuel + 1, cs => do
    let (v, r) ← parseVal fuel cs
    match skipWs r with
    | ',' :: r' => (parseElems fuel (skipWs r')).map fun p => (v :: p.1, p.2)
    | ']' :: r' => some ([v], r')
    | _ => none

/-- Comma-separated object members up to the closing brace. -/
def parseMembers : Nat → List Char → Option (List (String × JsVal) × List Char)
  | 0, _ => none
  | fuel + 1, cs =>
    match skipWs cs with
    | '"' :: rest => do
      let (kcs, r1) ← parseStrChars rest
      match skipWs r1 with
      | ':' :: r2 => do
        let (v, r3) ← parseVal fuel r2
        match skipWs r3 with
        | ',' :: r4 => (parseMembers fuel r4).map fun p => ((String.mk kcs, v) :: p.1, p.2)
        | '}' :: r4 => some ([(String.mk kcs, v)], r4)
        | _ => none
      | _ => none
    | _ => none

end

/-- Model of `JSON.parse`: parse a complete document, requiring only trailing
whitespace after the value.  Returns `none` where `JSON.parse` throws. -/
def parseJson (s : String) : Option JsVal :=
  match parseVal (2 * s.length + 8) s.data with
  | some (v, rest) => if skipWs rest = [] then some v else none
  | none => none

/-! ## Retry Executor (src/unnamed/part_003, `retryWithBackoff`, lines 7-50) -/

/-- An error thrown by a wrapped operation, carrying the status code the
executor extracts from `error?.status || error?.response?.status ||
error?.statusCode` (when none of those is present, `none`). -/
structure JsError where
  status : Option Nat
  deriving DecidableEq, Repr

/-- The immediate-failure test of the executor: a 4xx status other than 429
is a terminal client error (lines 23-26). -/
def terminalClientError : Option Nat → Bool
  | some c => 400 ≤ c && c < 500 && c != 429
  | none => false

/-- The second immediate-failure test (lines 28-31): a retryable-code list
was supplied, the error carries a truthy status code, and the code is not in
the list. -/
def outsideRetryable (retryableErrors : Option (List Nat)) (status : Option Nat) : Bool :=
  match retryableErrors, status with
  | some l, some c => c != 0 && !(l.contains c)
  | _, _ => false

/-- The retry loop of `retryWithBackoff` from attempt number `attempt`
onward.  The operation is modelled as a function from the attempt index to
its outcome; the result carries the number of times the operation was
invoked.  Backoff delays and jitter only affect timing and are not part of
the value model. -/
def retryGo (fn : Nat → Except JsError α) (maxRetries : Nat)
    (retryableErrors : Option (List Nat)) (attempt : Nat) :
    Except JsError α × Nat :=
  if _h : attempt < maxRetries then
    match fn attempt with
    | .ok v => (.ok v, 1)
    | .error e =>
      if terminalClientError e.status then (.error e, 1)
      else if outsideRetryable retryableErrors e.status then (.error e, 1)
      else if attempt = maxRetries - 1 then (.error e, 1)
      else
        let r := retryGo fn maxRetries retryableErrors (attempt + 1)
        (r.1, r.2 + 1)
  else
    -- the loop body never ran (maxRetries = 0): `throw lastError || new Error(...)`
    (.error ⟨none⟩, 0)
  termination_by maxRetries - attempt

/-- `retryWithBackoff(fn, maxRetries, initialDelay, maxDelay,
retryableErrors)`; the two delay parameters shape only the sleep durations
(line 39-42) and are kept for signature fidelity. -/
def retryWithBackoff (fn : Nat → Except JsError α) (maxRetries : Nat)
    (_initialDelay _maxDelay : Nat) (retryableErrors : Option (List Nat)) :
    Except JsError α × Nat :=
  retryGo fn maxRetries retryableErrors 0

/-! ## Tool-Output Normalizer (src/unnamed/part_003, `processToolResponse`,
lines 580-662).  JavaScript mutates `toolUseContent.input` in place, so the
model threads the state of that object explicitly: `ProcOut.finalInput` is
the state of the raw tool input after the call, `ProcOut.result` the value
returned (or the exception thrown). -/

instance {ε α : Type} [DecidableEq ε] [DecidableEq α] : DecidableEq (Except ε α) :=
  fun a b =>
    match a, b with
    | .ok x, .ok y =>
      if h : x = y then isTrue (by rw [h]) else isFalse (fun hh => h (Except.ok.inj hh))
    | .error x, .error y =>
      if h : x = y then isTrue (by rw [h]) else isFalse (fun hh => h (Except.error.inj hh))
    | .ok _, .error _ => isFalse nofun
    | .error _, .ok _ => isFalse nofun

/-- `Array.isArray`. -/
def isArray : JsVal → Bool
  | .arr _ => true
  | _ => false

/-- `Array.prototype.map` with a callback that may throw: elements are
visited in order and the first exception propagates. -/
def jsMapList (g : α → Except Unit β) : List α → Except Unit (List β)
  | [] => .ok []
  | x :: rest => do
    let y ← g x
    let ys ← jsMapList g rest
    .ok (y :: ys)

/-- Outcome of `processToolResponse`: the final state of the (mutated) raw
tool input, and the returned payload or thrown error message. -/
structure ProcOut where
  finalInput : JsVal
  result : Except String JsVal
  deriving DecidableEq, Repr

/-- Repair of a stringified `data` field (lines 588-599): parse once, parse
a second time when the first parse still yields a string, throw when a parse
fails. -/
def repairDataString (s : String) : Except String JsVal :=
  match parseJson s with
  | none => .error "Invalid chart data structure: data is not valid JSON"
  | some (.str s2) =>
    match parseJson s2 with
    | none => .error "Invalid chart data structure: data is not valid JSON"
    | some v => .ok v
  | some v => .ok v

/-- Phase 1 of the normalizer (lines 586-601): when `data` is a truthy
string, parse it (twice if double-encoded) and assign the result back to
`chartData.data`; when the parse fails the exception propagates before any
assignment.  Reading `.data` on a nullish input throws. -/
def repairPhase (input : JsVal) : Except String JsVal :=
  match getProp input "data" with
  | .error _ => .error "TypeError"
  | .ok d0 =>
    match d0 with
    | .str s =>
      if s ≠ "" then (repairDataString s).map (fun parsed => jsSetProp input "data" parsed)
      else .ok input
    | _ => .ok input

/-- The strict-equality test `chartData.chartType === "pie"`. -/
def isPieType : JsVal → Bool
  | .str s => s = "pie"
  | _ => false

/-- One record of the pie reshape (lines 634-638): `segment` is the first
truthy value of `item[segmentKey] || item.segment || item.category ||
item.name`; `value` is `item[valueKey] ?? item.value` (nullish coalescing).
Property reads throw when the record itself is nullish. -/
def pieMapItem (valueKey segmentKey : String) (item : JsVal) : Except Unit JsVal := do
  let segCand ← getProp item segmentKey
  let seg1 ← getProp item "segment"
  let seg2 ← getProp item "category"
  let seg3 ← getProp item "name"
  let v1 ← getProp item valueKey
  let value ← if nullish v1 then getProp item "value" else pure v1
  pure (.obj [("segment", jsOr segCand (jsOr seg1 (jsOr seg2 seg3))),
              ("value", value)])

/-- Per-item key computation of the pie reshape (lines 630-632):
`valueKey = Object.keys(chartData.chartConfig)[0]` (indexing an empty key
list gives `undefined`, which property access coerces to the string
"undefined"), `segmentKey = chartData.config.xAxisKey || "segment"`. -/
def pieTransformItem (input : JsVal) (item : JsVal) : Except Unit JsVal := do
  let cc ← getProp input "chartConfig"
  let keys ← jsObjectKeys cc
  let valueKey := keys.headD "undefined"
  let cfg ← getProp input "config"
  let xk ← getProp cfg "xAxisKey"
  pieMapItem valueKey (jsToString (jsOr xk (.str "segment"))) item

/-- Color assignment for one `chartConfig` entry (lines 647-654):
`{...config, color: hsl(var(--chart-(index+1)))}`. -/
def colorizeField (i : Nat) (v : JsVal) : JsVal :=
  .obj (setKey (spreadFields v) "color"
    (.str ("hsl(var(--chart-" ++ toString (i + 1) ++ "))")))

/-- The `Object.entries(chartConfig).reduce` of lines 646-656, building a
fresh object whose entries carry sequential color slots. -/
def colorizeChartConfig (cc : JsVal) : Except Unit JsVal := do
  let entries ← jsObjectEntries cc
  pure (.obj (entries.enum.foldl
    (fun acc p => setKey acc p.2.1 (colorizeField p.1 p.2.2)) []))

/-- Final phase (lines 645-661): colorize `chartConfig` (throws on a nullish
`chartConfig`) and return `{...chartData, chartConfig: processed}` — a fresh
top-level object sharing every other field with the mutated input. -/
def colorPhase (input : JsVal) : ProcOut :=
  match colorizeChartConfig (jsGetD input "chartConfig") with
  | .error _ => ⟨input, .error "TypeError"⟩
  | .ok cc => ⟨input, .ok (.obj (setKey (spreadFields input) "chartConfig" cc))⟩

/-- Phases 2-4 of the normalizer, starting from the input as left by the
string repair: validation (lines 603-624), pie reshape (626-643, mutating
`data` and `config.xAxisKey` in place; assignment to a non-object `config`
throws), then color assignment. -/
def processAfterRepair (input : JsVal) : ProcOut :=
  let ct := jsGetD input "chartType"
  let d := jsGetD input "data"
  if !truthy ct || !truthy d || !isArray d then
    ⟨input, .error "Invalid chart data structure"⟩
  else if isPieType ct then
    match d with
    | .arr items =>
      match jsMapList (pieTransformItem input) items with
      | .error _ => ⟨input, .error "TypeError"⟩
      | .ok mapped =>
        let input2 := jsSetProp input "data" (.arr mapped)
        match jsGetD input2 "config" with
        | .obj cfs =>
          colorPhase (jsSetProp input2 "config" (.obj (setKey cfs "xAxisKey" (.str "segment"))))
        | _ => ⟨input2, .error "TypeError"⟩
    | _ => ⟨input, .error "Invalid chart data structure"⟩
  else colorPhase input

/-- `processToolResponse(toolUseContent)` for a non-null tool block, acting
on `chartData = toolUseContent.input`. -/
def processToolResponse (input : JsVal) : ProcOut :=
  match repairPhase input with
  | .error msg => ⟨input, .error msg⟩
  | .ok input1 => processAfterRepair input1

/-! ## Model-response handling (src/unnamed/part_003, lines 545-709) -/

/-- A typed content block of the model response: free text or one named tool
invocation with its input payload. -/
inductive CBlock where
  | text (t : String)
  | toolUse (id : String) (name : String) (input : JsVal)
  deriving DecidableEq, Repr

/-- The text of every text block, in order (lines 574-577). -/
def textBlocks (blocks : List CBlock) : List String :=
  blocks.filterMap fun b =>
    match b with
    | .text t => some t
    | _ => none

/-- All tool-use blocks, in order (line 569). -/
def toolUseBlocks (blocks : List CBlock) : List CBlock :=
  blocks.filter fun b =>
    match b with
    | .toolUse _ _ _ => true
    | _ => false

/-- Does a block invoke the chart-generation tool? -/
def isGenGraph : CBlock → Bool
  | .toolUse _ n _ => n = "generate_graph_data"
  | _ => false

/-- Line 571: `allToolUseBlocks.find(c => c.name === "generate_graph_data")
|| allToolUseBlocks[0] || null`. -/
def selectedToolUse (blocks : List CBlock) : Option CBlock :=
  match (toolUseBlocks blocks).find? isGenGraph with
  | some b => some b
  | none => (toolUseBlocks blocks).head?

/-- Line 576-578: all text blocks concatenated, joined by a blank line. -/
def fullTextContent (blocks : List CBlock) : String :=
  String.intercalate "\n\n" (textBlocks blocks)

/-- The success response body of the route (lines 674-685): the serialized
`responseData`.  `toolUse` echoes `(id, name, input)` of the selected block,
where `input` is the state of the raw payload after `processToolResponse`
ran (the object is shared, so in-place repairs are visible here). -/
structure RouteOut where
  status : Nat
  content : String
  hasToolUse : Bool
  toolUse : Option (String × String × JsVal)
  chartData : Option JsVal
  deriving DecidableEq, Repr

/-- Lines 545-709 after the generative call: select blocks, run the
normalizer in a try/catch that degrades to `chartData: null`, build the
200 response. -/
def routeTail (blocks : List CBlock) : RouteOut :=
  match selectedToolUse blocks with
  | some (.toolUse id name inp) =>
    let p := processToolResponse inp
    { status := 200
      content := fullTextContent blocks
      hasToolUse := (toolUseBlocks blocks) ≠ []
      toolUse := some (id, name, p.finalInput)
      chartData := match p.result with | .ok v => some v | .error _ => none }
  | _ =>
    { status := 200
      content := fullTextContent blocks
      hasToolUse := (toolUseBlocks blocks) ≠ []
      toolUse := none
      chartData := none }

/-! ## Context fusion (src/unnamed/part_003, lines 179-445).

A conversation turn carries a role and a content value (a plain string or an
array of typed parts).  External effects are modelled as injected outcomes:
`stockFetch` is the result of the retry-wrapped portfolio fetch,
`perplexityFetch` the result of the retry-wrapped live-search call,
`decodeFile` the base64+UTF-8 text decoding used by the file-attachment
step.  Any uncaught exception is `PipeErr.thrown` (the outer catch turns it
into a 500 response); explicit 400 responses are `PipeErr.badRequest`. -/

/-- A conversation turn as the route handles it. -/
structure Msg where
  role : String
  content : JsVal
  deriving DecidableEq, Repr

/-- How the fusion pipeline aborts: a 400 input-validation response or an
uncaught exception (500). -/
inductive PipeErr where
  | badRequest (msg : String)
  | thrown
  deriving DecidableEq, Repr

/-- `icfData = icfMapping || null` (line 184). -/
def icfDataOf (icfMapping : JsVal) : JsVal := jsOr icfMapping .null

/-- The STEP 1a gate (line 281): the portfolio fetch is attempted only when
live data was requested and `firm_name`, `client_id` and
`investment_banker_id` are all truthy. -/
def stockAttempted (includeLiveData icfMapping : JsVal) : Bool :=
  truthy includeLiveData && truthy (icfDataOf icfMapping)
    && truthy (jsGetD (icfDataOf icfMapping) "firm_name")
    && truthy (jsGetD (icfDataOf icfMapping) "client_id")
    && truthy (jsGetD (icfDataOf icfMapping) "investment_banker_id")

/-- The query-extraction filter (line 314): keep the parts whose `type` is
`"text"`; reading `.type` on a nullish part throws. -/
def filterTextParts : List JsVal → Except Unit (List JsVal)
  | [] => .ok []
  | c :: rest => do
    let t ← getProp c "type"
    let rest' ← filterTextParts rest
    .ok (if t = .str "text" then c :: rest' else rest')

/-- Lines 308-318: extract the plain-text query from the last turn — the
content itself when it is a string, the `text` fields of the text parts
joined by a space when it is an array, the empty string otherwise. -/
def extractQuery (messages : List Msg) : Except Unit String :=
  match messages.getLast? with
  | none => .ok ""
  | some last =>
    match last.content with
    | .str s => .ok s
    | .arr parts => do
      let tparts ← filterTextParts parts
      .ok (jsJoin " " (tparts.map (fun c => jsGetD c "text")))
    | _ => .ok ""

/-- Model of `String.prototype.trim`: strip leading and trailing whitespace
(characters with code points up to 32), by structural recursion so that it
evaluates by kernel reduction. -/
def jsTrim (s : String) : String :=
  String.mk (((s.data.dropWhile (fun c => c.toNat ≤ 32)).reverse.dropWhile
    (fun c => c.toNat ≤ 32)).reverse)

/-- The STEP 1b gate (lines 305, 320): live search happens only when live
data was requested, the conversation is non-empty and the extracted query is
not pure whitespace. -/
def perpAttempted (includeLiveData : JsVal) (messages : List Msg) : Except Unit Bool :=
  if truthy includeLiveData ∧ messages ≠ [] then
    (extractQuery messages).map (fun q => jsTrim q ≠ "")
  else .ok false

/-- `responseData.citations?.length || 0` (line 362). -/
def jsCitationCount : JsVal → Int
  | .arr xs => xs.length
  | .str s => s.length
  | _ => 0

/-- Lines 358-368: turn a successful live-search response body into the
`perplexityData` record, or `null` when the body is unusable (a thrown
property read on a nullish body is caught by the surrounding try). -/
def perplexityDataOf (rd : JsVal) : JsVal :=
  match getProp rd "success" with
  | .error _ => .null
  | .ok s =>
    if truthy s && truthy (jsGetD rd "content") then
      .obj [("content", jsGetD rd "content"),
            ("citations", jsOr (jsGetD rd "citations") (.arr [])),
            ("citationCount", .num (jsCitationCount (jsGetD rd "citations")))]
    else .null

/-- The serialized portfolio blob (lines 387-389): pretty JSON for values of
`typeof === "object"`, `String(v)` otherwise. -/
def stockSerialization (v : JsVal) : String :=
  match v with
  | .null => prettyVal 0 v
  | .arr _ => prettyVal 0 v
  | .obj _ => prettyVal 0 v
  | v => jsToString v

/-- `String.prototype.substring(0, n)`. -/
def strTake (s : String) (n : Nat) : String := String.mk (s.data.take n)

/-- `stockDataSummary` (lines 387-389): the serialization truncated to 3000
characters. -/
def stockDataSummary (v : JsVal) : String :=
  match v with
  | .null => strTake (prettyVal 0 v) 3000
  | .arr _ => strTake (prettyVal 0 v) 3000
  | .obj _ => strTake (prettyVal 0 v) 3000
  | v => strTake (jsToString v) 3000

/-- `icfData?.k` — optional chaining used inside the portfolio section. -/
def jsOptGet (v : JsVal) (k : String) : JsVal :=
  if nullish v then .undef else jsGetD v k

/-- The delimited portfolio section of the enhanced prompt (lines 391-396). -/
def portfolioSection (stockData icfData : JsVal) : String :=
  "---\n**STOCK/PORTFOLIO DATA (Current Holdings & Performance for "
    ++ jsToString (jsOr (jsOptGet icfData "firm_account_name") (.str "Account"))
    ++ " at " ++ jsToString (jsOr (jsOptGet icfData "firm_name") (.str "Firm"))
    ++ "):**\n" ++ stockDataSummary stockData ++ "\n---\n\n"

/-- The delimited live-search section of the enhanced prompt (lines 400-407). -/
def liveSection (perplexityData : JsVal) : String :=
  "---\n**LIVE DATA FROM WEB SEARCH (Latest Market Information):**\n"
    ++ jsToString (jsGetD perplexityData "content")
    ++ "\n\n**Sources:** " ++ jsToString (jsGetD perplexityData "citationCount")
    ++ " citation(s) found\n---\n\n"

/-- The instruction bullet list (lines 410-419). -/
def buildInstructions (hasStock hasPerp : Bool) : List String :=
  (if hasStock then ["- The current stock/portfolio data provided above"] else [])
    ++ (if hasPerp then ["- The latest live market data from web search"] else [])
    ++ (if hasStock && hasPerp then ["- Combine both sources for comprehensive analysis"] else [])

/-- The full enhanced prompt of STEP 2 (lines 383-421). -/
def buildEnhancedPrompt (q : String) (stockData perplexityData icfData : JsVal) : String :=
  "Original Query: " ++ q ++ "\n\n"
    ++ (if truthy stockData then portfolioSection stockData icfData else "")
    ++ (if truthy perplexityData && truthy (jsGetD perplexityData "content")
        then liveSection perplexityData else "")
    ++ "Please analyze the above query using:\n"
    ++ String.intercalate "\n" (buildInstructions (truthy stockData) (truthy perplexityData))
    ++ "\n\nIncorporate all available information into your analysis and visualizations."

/-- Replace the last element of a non-empty list (the
`anthropicMessages[lastMessageIndex] = ...` assignment). -/
def setLast (msgs : List Msg) (m : Msg) : List Msg := msgs.dropLast ++ [m]

/-- `contentArray.find(c => c.type === 'text')` followed by an in-place
`textElement.text = prompt` (lines 434-438): returns the updated part list
when a text part exists, `none` when the scan completes without a match; a
nullish part examined before the first match throws. -/
def updateTextElement (prompt : String) : List JsVal → Except Unit (Option (List JsVal))
  | [] => .ok none
  | c :: rest => do
    let t ← getProp c "type"
    if t = .str "text" then .ok (some (jsSetProp c "text" (.str prompt) :: rest))
    else (updateTextElement prompt rest).map (fun o => o.map (fun l => c :: l))

/-- Lines 423-442: write the enhanced prompt into the last turn — replacing
a string content outright, updating (or prepending) the text part of an
array content, and leaving any other content shape untouched. -/
def applyEnhancedPrompt (msgs : List Msg) (prompt : String) : Except Unit (List Msg) :=
  match msgs.getLast? with
  | none => .error ()
  | some last =>
    match last.content with
    | .str _ => .ok (setLast msgs ⟨last.role, .str prompt⟩)
    | .arr parts => do
      let upd ← updateTextElement prompt parts
      match upd with
      | some parts' => .ok (setLast msgs ⟨last.role, .arr parts'⟩)
      | none => .ok (setLast msgs ⟨last.role,
          .arr (.obj [("type", .str "text"), ("text", .str prompt)] :: parts)⟩)
    | _ => .ok msgs

/-- The file-attachment step (lines 216-272): rewrite the last turn with the
decoded text file or the inline image, returning 400 responses exactly where
the source does (missing base64; any exception inside the guarded block,
including property access on a missing last message and `startsWith` on a
non-string media type). -/
def applyFileData (msgs : List Msg) (origMessages : List Msg) (fileData : JsVal)
    (decodeFile : String → Except Unit String) : Except PipeErr (List Msg) :=
  let base64 := jsGetD fileData "base64"
  if ¬ truthy base64 then .error (.badRequest "No file data")
  else if truthy (jsGetD fileData "isText") then
    match decodeFile (jsToString base64) with
    | .error _ => .error (.badRequest "Failed to process file content")
    | .ok textContent =>
      match origMessages.getLast? with
      | none => .error (.badRequest "Failed to process file content")
      | some lastOrig =>
        .ok (setLast msgs ⟨"user", .arr [
          .obj [("type", .str "text"),
                ("text", .str ("File contents of "
                  ++ jsToString (jsGetD fileData "fileName") ++ ":\n\n" ++ textContent))],
          .obj [("type", .str "text"), ("text", lastOrig.content)]]⟩)
  else
    match jsGetD fileData "mediaType" with
    | .str mt =>
      if mt.startsWith "image/" then
        match origMessages.getLast? with
        | none => .error (.badRequest "Failed to process file content")
        | some lastOrig =>
          .ok (setLast msgs ⟨"user", .arr [
            .obj [("type", .str "image"),
                  ("source", .obj [("type", .str "base64"),
                                   ("media_type", .str mt), ("data", base64)])],
            .obj [("type", .str "text"), ("text", lastOrig.content)]]⟩)
      else .ok msgs
    | _ => .error (.badRequest "Failed to process file content")

/-- STEP 1 and STEP 2 of `POST` (lines 209-445): file handling, the two
independently fault-tolerant supplementary fetches, and the prompt fusion.
Returns the conversation handed to the generative invocation. -/
def fusedMessages (messages : List Msg) (fileData includeLiveData icfMapping : JsVal)
    (decodeFile : String → Except Unit String)
    (stockFetch perplexityFetch : Except JsError JsVal) :
    Except PipeErr (List Msg) := do
  let msgs0 := messages.map (fun m => Msg.mk m.role m.content)
  let msgs1 ← if truthy fileData then
      applyFileData msgs0 messages fileData decodeFile
    else .ok msgs0
  let stockData := if stockAttempted includeLiveData icfMapping then
      (match stockFetch with | .ok v => v | .error _ => JsVal.null)
    else JsVal.null
  let q ← if truthy includeLiveData ∧ messages ≠ [] then
      (extractQuery messages).mapError (fun _ => PipeErr.thrown)
    else .ok ""
  let perplexityData := if truthy includeLiveData ∧ messages ≠ [] ∧ jsTrim q ≠ "" then
      (match perplexityFetch with
       | .ok rd => perplexityDataOf rd
       | .error _ => JsVal.null)
    else JsVal.null
  if truthy includeLiveData ∧ q ≠ "" ∧ (truthy stockData ∨ truthy perplexityData) then
    (applyEnhancedPrompt msgs1
        (buildEnhancedPrompt q stockData perplexityData (icfDataOf icfMapping))).mapError
      (fun _ => PipeErr.thrown)
  else .ok msgs1

/-- The final HTTP response of the route. -/
inductive RouteResult where
  | errorResp (status : Nat) (error : String)
  | success (out : RouteOut)
  deriving DecidableEq, Repr

/-- The whole `POST` handler (lines 179-753) with external collaborators
injected: input validation, fusion, the retry-wrapped generative call
(outcome `modelCall`), then response shaping.  A generative failure is
surfaced with the upstream status (500 when unknown). -/
def financePost (messages : List Msg) (fileData model includeLiveData icfMapping : JsVal)
    (decodeFile : String → Except Unit String)
    (stockFetch perplexityFetch : Except JsError JsVal)
    (modelCall : List Msg → Except JsError (List CBlock)) : RouteResult :=
  if ¬ truthy model then .errorResp 400 "Model selection is required"
  else
    match fusedMessages messages fileData includeLiveData icfMapping
        decodeFile stockFetch perplexityFetch with
    | .error (.badRequest msg) => .errorResp 400 msg
    | .error .thrown => .errorResp 500 "An unknown error occurred"
    | .ok fused =>
      match modelCall fused with
      | .error e => .errorResp (e.status.getD 500) "API Error"
      | .ok blocks => .success (routeTail blocks)

/-! ## Helper lemmas -/

/-- Reading back the key just written. -/
theorem lookupKey_setKey (fs : List (String × JsVal)) (k : String) (v : JsVal) :
    lookupKey (setKey fs k v) k = v := by
  induction fs with
  | nil => simp [setKey, lookupKey, List.find?]
  | cons p rest ih =>
    by_cases h : p.1 = k
    · simp [setKey, h, lookupKey, List.find?]
    · cases p with
      | mk k' v' =>
        simp only at h
        simp only [setKey, if_neg h]
        simpa [lookupKey, List.find?, h] using ih

/-- Reading a different key after a write. -/
theorem lookupKey_setKey_ne (fs : List (String × JsVal)) (k k' : String) (v : JsVal)
    (h : k' ≠ k) : lookupKey (setKey fs k v) k' = lookupKey fs k' := by
  induction fs with
  | nil => simp [setKey, lookupKey, List.find?, Ne.symm h]
  | cons p rest ih =>
    cases p with
    | mk k0 v0 =>
      by_cases h0 : k0 = k
      · subst h0
        simp [setKey, lookupKey, List.find?, Ne.symm h]
      · by_cases h1 : k0 = k'
        · subst h1
          simp [setKey, h0, lookupKey, List.find?]
        · simpa [setKey, h0, lookupKey, List.find?, h1] using ih

/-- Writing the same key twice keeps only the second write. -/
theorem setKey_setKey (fs : List (String × JsVal)) (k : String) (v w : JsVal) :
    setKey (setKey fs k v) k w = setKey fs k w := by
  induction fs with
  | nil => simp [setKey]
  | cons p rest ih =>
    cases p with
    | mk k0 v0 =>
      by_cases h0 : k0 = k
      · simp [setKey, h0]
      · simp [setKey, h0, ih]

/-- A throwing map succeeds pointwise. -/
theorem jsMapList_ok_of_forall {α β : Type} (g : α → Except Unit β) (f : α → β)
    (l : List α) (h : ∀ x ∈ l, g x = .ok (f x)) :
    jsMapList g l = .ok (l.map f) := by
  induction l with
  | nil => rfl
  | cons x rest ih =>
    have hx : g x = .ok (f x) := h x (List.mem_cons_self x rest)
    have hr := ih (fun y hy => h y (List.mem_cons_of_mem x hy))
    simp [jsMapList, hx, hr]
    rfl

/-- A status allowed by the retryable list never trips the membership
check. -/
theorem outsideRetryable_allowed {re : Option (List Nat)} {c : Nat}
    (h : ∀ l, re = some l → c ∈ l) : outsideRetryable re (some c) = false := by
  cases re with
  | none => rfl
  | some l =>
    have hc : c ∈ l := h l rfl
    simp [outsideRetryable, List.contains, hc]

/-! ## Claim theorems -/

/-- C2: a 503-503-success run with `maxAttempts = 3` (and 503 allowed by any
supplied retryable list) returns the success value after exactly 3 calls; a
401 failure — like every status in [400,500) other than 429 — is terminal
after exactly 1 call, whatever the attempt budget (≥ 1, so that a first call
happens at all). -/
theorem retry_policy_c2 :
    (∀ (fn : Nat → Except JsError Nat) (v : Nat) (re : Option (List Nat))
      (d1 d2 : Nat),
      fn 0 = .error ⟨some 503⟩ → fn 1 = .error ⟨some 503⟩ → fn 2 = .ok v →
      (∀ l, re = some l → 503 ∈ l) →
      retryWithBackoff fn 3 d1 d2 re = (.ok v, 3))
    ∧ (∀ (fn : Nat → Except JsError Nat) (mr d1 d2 : Nat) (re : Option (List Nat)),
      1 ≤ mr → fn 0 = .error ⟨some 401⟩ →
      retryWithBackoff fn mr d1 d2 re = (.error ⟨some 401⟩, 1))
    ∧ (∀ (fn : Nat → Except JsError Nat) (mr d1 d2 c : Nat) (re : Option (List Nat)),
      1 ≤ mr → 400 ≤ c → c < 500 → c ≠ 429 → fn 0 = .error ⟨some c⟩ →
      retryWithBackoff fn mr d1 d2 re = (.error ⟨some c⟩, 1)) := by
  refine ⟨?_, ?_, ?_⟩
  · intro fn v re d1 d2 h0 h1 h2 hre
    have hout : outsideRetryable re (some 503) = false := outsideRetryable_allowed hre
    unfold retryWithBackoff
    rw [retryGo]
    simp only [show (0 : Nat) < 3 by decide, dif_pos, h0]
    rw [show terminalClientError (JsError.mk (some 503)).status = false from rfl]
    simp only [Bool.false_eq_true, if_false, hout,
      show (0 : Nat) ≠ 3 - 1 by decide, if_false]
    rw [retryGo]
    simp only [show (1 : Nat) < 3 by decide, dif_pos, h1]
    rw [show terminalClientError (JsError.mk (some 503)).status = false from rfl]
    simp only [Bool.false_eq_true, if_false, hout,
      show (1 : Nat) ≠ 3 - 1 by decide, if_false]
    rw [retryGo]
    simp only [show (2 : Nat) < 3 by decide, dif_pos, h2]
  · intro fn mr d1 d2 re hmr h0
    unfold retryWithBackoff
    rw [retryGo]
    simp only [show 0 < mr from hmr, dif_pos, h0]
    rw [show terminalClientError (JsError.mk (some 401)).status = true from rfl]
    simp
  · intro fn mr d1 d2 c re hmr h4 h5 h429 h0
    have hterm : terminalClientError (JsError.mk (some c)).status = true := by
      simp [terminalClientError, h4, h5, h429]
    unfold retryWithBackoff
    rw [retryGo]
    simp only [show 0 < mr from hmr, dif_pos, h0, hterm, if_true]

/-- Witness for C2 at concrete operations: two 503 failures then success
with the production retryable list, and a 401 failure with a budget of 5. -/
theorem retry_policy_c2_witness :
    retryWithBackoff (fun n => if n < 2 then .error ⟨some 503⟩ else .ok 7)
      3 1000 10000 (some [429, 500, 502, 503, 504]) = (.ok 7, 3)
    ∧ retryWithBackoff (fun _ => (.error ⟨some 401⟩ : Except JsError Nat))
      5 2000 8000 none = (.error ⟨some 401⟩, 1)
    ∧ retryWithBackoff (fun _ => (.error ⟨some 404⟩ : Except JsError Nat))
      3 1000 10000 none = (.error ⟨some 404⟩, 1) := by
  refine ⟨?_, ?_, ?_⟩
  · exact retry_policy_c2.1 _ 7 _ 1000 10000 (by decide) (by decide) (by decide)
      (by intro l hl; cases hl; decide)
  · exact retry_policy_c2.2.1 _ 5 2000 8000 none (by decide) (by decide)
  · exact retry_policy_c2.2.2 _ 3 1000 10000 404 none (by decide) (by decide)
      (by decide) (by decide) (by decide)

/-- C1: whenever normalization of the selected tool invocation throws (any
exception in parsing, validation, pie reshaping or color assignment), the
request still succeeds: status 200, `chartData: null`, and the concatenated
generated text returned unmodified. -/
theorem malformed_tool_call_c1 (blocks : List CBlock) (id name : String)
    (inp : JsVal) (msg : String)
    (hsel : selectedToolUse blocks = some (.toolUse id name inp))
    (herr : (processToolResponse inp).result = .error msg) :
    (routeTail blocks).status = 200
    ∧ (routeTail blocks).chartData = none
    ∧ (routeTail blocks).content = fullTextContent blocks := by
  unfold routeTail
  rw [hsel]
  refine ⟨rfl, ?_, rfl⟩
  simp only [herr]

/-- The model response used by the C1 witness: text plus a tool call whose
input lacks a `data` array. -/
def c1Blocks : List CBlock :=
  [.text "Here is the analysis.",
   .toolUse "toolu_01" "generate_graph_data" (.obj [("chartType", .str "bar")])]

/-- Witness for C1: the concrete malformed invocation yields a 200 response
with `chartData: null` and the original text. -/
theorem malformed_tool_call_c1_witness :
    (routeTail c1Blocks).status = 200
    ∧ (routeTail c1Blocks).chartData = none
    ∧ (routeTail c1Blocks).content = fullTextContent c1Blocks :=
  malformed_tool_call_c1 c1Blocks "toolu_01" "generate_graph_data"
    (.obj [("chartType", .str "bar")]) "Invalid chart data structure"
    (by decide) (by decide)

/-- C3: a payload whose `data` field is a string parsing to an array, or a
string parsing to a string that parses to the array, is repaired to the very
payload carrying the array natively — so normalization of all three forms is
identical, and the repaired `data` is the genuine array in each case. -/
theorem data_roundtrip_c3 (fs : List (String × JsVal)) (s1 s2 s2' : String)
    (xs : List JsVal)
    (h1 : parseJson s1 = some (.arr xs))
    (h2 : parseJson s2 = some (.str s2'))
    (h2' : parseJson s2' = some (.arr xs)) :
    repairPhase (.obj (setKey fs "data" (.str s1)))
      = .ok (.obj (setKey fs "data" (.arr xs)))
    ∧ repairPhase (.obj (setKey fs "data" (.str s2)))
      = .ok (.obj (setKey fs "data" (.arr xs)))
    ∧ repairPhase (.obj (setKey fs "data" (.arr xs)))
      = .ok (.obj (setKey fs "data" (.arr xs)))
    ∧ processToolResponse (.obj (setKey fs "data" (.str s1)))
      = processToolResponse (.obj (setKey fs "data" (.arr xs)))
    ∧ processToolResponse (.obj (setKey fs "data" (.str s2)))
      = processToolResponse (.obj (setKey fs "data" (.arr xs))) := by
  have hempty : parseJson "" = none := by decide
  have hs1 : s1 ≠ "" := fun h => by rw [h, hempty] at h1; cases h1
  have hs2 : s2 ≠ "" := fun h => by rw [h, hempty] at h2; cases h2
  have r1 : repairPhase (.obj (setKey fs "data" (.str s1)))
      = .ok (.obj (setKey fs "data" (.arr xs))) := by
    simp [repairPhase, getProp, nullish, jsGetD, lookupKey_setKey, hs1,
      repairDataString, h1, jsSetProp, setKey_setKey, Except.map]
  have r2 : repairPhase (.obj (setKey fs "data" (.str s2)))
      = .ok (.obj (setKey fs "data" (.arr xs))) := by
    simp [repairPhase, getProp, nullish, jsGetD, lookupKey_setKey, hs2,
      repairDataString, h2, h2', jsSetProp, setKey_setKey, Except.map]
  have r3 : repairPhase (.obj (setKey fs "data" (.arr xs)))
      = .ok (.obj (setKey fs "data" (.arr xs))) := by
    simp [repairPhase, getProp, nullish, jsGetD, lookupKey_setKey]
  exact ⟨r1, r2, r3, by simp [processToolResponse, r1, r3],
    by simp [processToolResponse, r2, r3]⟩

/-- The payload fields (without `data`) shared by the C3 witness. -/
def c3Fields : List (String × JsVal) :=
  [("chartType", .str "bar"),
   ("config", .obj [("title", .str "T"), ("description", .str "D")]),
   ("chartConfig", .obj [("a", .obj [("label", .str "A")])])]

/-- Witness for C3 at a concrete record array, its JSON encoding and its
double encoding. -/
theorem data_roundtrip_c3_witness :
    repairPhase (.obj (setKey c3Fields "data" (.str "[\x7b\"a\":1\x7d]")))
      = .ok (.obj (setKey c3Fields "data" (.arr [.obj [("a", .num 1)]])))
    ∧ processToolResponse (.obj (setKey c3Fields "data" (.str "\"[\x7b\\\"a\\\":1\x7d]\"")))
      = processToolResponse (.obj (setKey c3Fields "data" (.arr [.obj [("a", .num 1)]]))) := by
  have h := data_roundtrip_c3 c3Fields "[\x7b\"a\":1\x7d]"
    "\"[\x7b\\\"a\\\":1\x7d]\"" "[\x7b\"a\":1\x7d]" [.obj [("a", .num 1)]]
    (by decide) (by decide) (by decide)
  exact ⟨h.1, h.2.2.2.2⟩

/-- The pie-record reshape as the specification words it: `segment` from the
field named by `config.xAxisKey` (default `"segment"`), falling back through
fields literally named `segment`, `category`, `name`; `value` from the field
matching the first key declared in `chartConfig`, falling back to a field
literally named `value`. -/
def specPieRecord (cfs ccfs : List (String × JsVal)) (item : JsVal) : JsVal :=
  let segmentKey := jsToString (jsOr (lookupKey cfs "xAxisKey") (.str "segment"))
  let valueKey := (ccfs.map Prod.fst).headD "undefined"
  .obj [("segment", jsOr (jsGetD item segmentKey)
          (jsOr (jsGetD item "segment")
            (jsOr (jsGetD item "category") (jsGetD item "name")))),
        ("value", if nullish (jsGetD item valueKey) then jsGetD item "value"
                  else jsGetD item valueKey)]

/-- Evaluation of `pieMapItem` on a non-nullish record. -/
theorem pieMapItem_eq (vk sk : String) (item : JsVal) (h : nullish item = false) :
    pieMapItem vk sk item
      = .ok (.obj [("segment", jsOr (jsGetD item sk)
              (jsOr (jsGetD item "segment")
                (jsOr (jsGetD item "category") (jsGetD item "name")))),
            ("value", if nullish (jsGetD item vk) then jsGetD item "value"
                      else jsGetD item vk)]) := by
  by_cases hv : nullish (jsGetD item vk) <;>
    simp [pieMapItem, getProp, h, hv, Except.bind, bind, pure, Except.pure]

/-- Evaluation of `pieTransformItem` against an object payload. -/
theorem pieTransformItem_eq (fs ccfs cfs : List (String × JsVal)) (item : JsVal)
    (hcc : lookupKey fs "chartConfig" = .obj ccfs)
    (hcfg : lookupKey fs "config" = .obj cfs)
    (h : nullish item = false) :
    pieTransformItem (.obj fs) item = .ok (specPieRecord cfs ccfs item) := by
  simp only [pieTransformItem, getProp, nullish, jsGetD, hcc, hcfg,
    jsObjectKeys, jsObjectEntries, spreadFields, Except.map, Except.bind, bind,
    Bool.false_eq_true, if_false]
  rw [pieMapItem_eq _ _ _ h]
  rfl

/-- C4: on a pie payload every record is remapped to exactly the two keys
`segment` and `value` following the xAxisKey/segment/category/name and
first-chartConfig-key/value lookup chains, and `config.xAxisKey` is forced
to `"segment"`; the spec example with regions and sales reshapes to the
stated segment/value records. -/
theorem pie_reshape_c4 (fs : List (String × JsVal)) (items : List JsVal)
    (ccfs cfs : List (String × JsVal))
    (hct : lookupKey fs "chartType" = .str "pie")
    (hdata : lookupKey fs "data" = .arr items)
    (hcc : lookupKey fs "chartConfig" = .obj ccfs)
    (hcfg : lookupKey fs "config" = .obj cfs)
    (hitems : ∀ item ∈ items, nullish item = false) :
    (∃ r, (processToolResponse (.obj fs)).result = .ok r
      ∧ jsGetD r "data" = .arr (items.map (specPieRecord cfs ccfs))
      ∧ jsGetD (jsGetD r "config") "xAxisKey" = .str "segment")
    ∧ (∀ rec ∈ items.map (specPieRecord cfs ccfs),
        ∃ a b, rec = .obj [("segment", a), ("value", b)])
    ∧ (processToolResponse (.obj [
        ("chartType", .str "pie"),
        ("config", .obj [("title", .str "T"), ("description", .str "D"),
                         ("xAxisKey", .str "region")]),
        ("data", .arr [.obj [("region", .str "US"), ("sales", .num 10)],
                       .obj [("region", .str "EU"), ("sales", .num 5)]]),
        ("chartConfig", .obj [("sales", .obj [("label", .str "Sales")])])])).result
      = .ok (.obj [
        ("chartType", .str "pie"),
        ("config", .obj [("title", .str "T"), ("description", .str "D"),
                         ("xAxisKey", .str "segment")]),
        ("data", .arr [.obj [("segment", .str "US"), ("value", .num 10)],
                       .obj [("segment", .str "EU"), ("value", .num 5)]]),
        ("chartConfig", .obj [("sales", .obj [("label", .str "Sales"),
                         ("color", .str "hsl(var(--chart-1))")])])]) := by
  refine ⟨?_, ?_, by decide⟩
  · have hmap : jsMapList (pieTransformItem (.obj fs)) items
        = .ok (items.map (specPieRecord cfs ccfs)) :=
      jsMapList_ok_of_forall _ _ _
        (fun x hx => pieTransformItem_eq fs ccfs cfs x hcc hcfg (hitems x hx))
    have hrepair : repairPhase (.obj fs) = .ok (.obj fs) := by
      simp [repairPhase, getProp, nullish, jsGetD, hdata]
    have hcfg2 : lookupKey (setKey fs "data"
        (.arr (items.map (specPieRecord cfs ccfs)))) "config" = .obj cfs := by
      rw [lookupKey_setKey_ne _ _ _ _ (by decide), hcfg]
    have hcc3 : lookupKey (setKey (setKey fs "data"
          (.arr (items.map (specPieRecord cfs ccfs)))) "config"
          (.obj (setKey cfs "xAxisKey" (.str "segment")))) "chartConfig"
        = .obj ccfs := by
      rw [lookupKey_setKey_ne _ _ _ _ (by decide),
        lookupKey_setKey_ne _ _ _ _ (by decide), hcc]
    have hfull : processToolResponse (.obj fs)
        = ⟨.obj (setKey (setKey fs "data" (.arr (items.map (specPieRecord cfs ccfs))))
              "config" (.obj (setKey cfs "xAxisKey" (.str "segment")))),
           .ok (.obj (setKey (setKey (setKey fs "data"
                (.arr (items.map (specPieRecord cfs ccfs))))
              "config" (.obj (setKey cfs "xAxisKey" (.str "segment")))) "chartConfig"
             (.obj (ccfs.enum.foldl
               (fun acc p => setKey acc p.2.1 (colorizeField p.1 p.2.2)) []))))⟩ := by
      simp only [processToolResponse, hrepair]
      simp [processAfterRepair, jsGetD, hct, hdata, hmap, truthy, isArray,
        isPieType, jsSetProp, hcfg2, colorPhase, hcc3, colorizeChartConfig,
        jsObjectEntries, spreadFields, Except.bind, bind, pure, Except.pure]
    refine ⟨_, by rw [hfull], ?_, ?_⟩
    · show jsGetD (JsVal.obj (setKey (setKey (setKey fs "data"
          (.arr (items.map (specPieRecord cfs ccfs))))
          "config" (.obj (setKey cfs "xAxisKey" (.str "segment")))) "chartConfig"
          (.obj (ccfs.enum.foldl
            (fun acc p => setKey acc p.2.1 (colorizeField p.1 p.2.2)) [])))) "data"
        = .arr (items.map (specPieRecord cfs ccfs))
      rw [jsGetD, lookupKey_setKey_ne _ _ _ _ (by decide),
        lookupKey_setKey_ne _ _ _ _ (by decide), lookupKey_setKey]
    · show jsGetD (jsGetD (JsVal.obj (setKey (setKey (setKey fs "data"
          (.arr (items.map (specPieRecord cfs ccfs))))
          "config" (.obj (setKey cfs "xAxisKey" (.str "segment")))) "chartConfig"
          (.obj (ccfs.enum.foldl
            (fun acc p => setKey acc p.2.1 (colorizeField p.1 p.2.2)) [])))) "config")
          "xAxisKey" = .str "segment"
      rw [jsGetD, lookupKey_setKey_ne _ _ _ _ (by decide), lookupKey_setKey,
        jsGetD, lookupKey_setKey]
  · intro rec hrec
    rcases List.mem_map.mp hrec with ⟨x, _, hx⟩
    exact ⟨_, _, hx.symm⟩

/-- The data records of the C4 witness payload. -/
def c4Items : List JsVal :=
  [.obj [("region", .str "US"), ("sales", .num 10)],
   .obj [("region", .str "EU"), ("sales", .num 5)]]

/-- The `config` fields of the C4 witness payload. -/
def c4Config : List (String × JsVal) :=
  [("title", .str "T"), ("description", .str "D"), ("xAxisKey", .str "region")]

/-- The `chartConfig` fields of the C4 witness payload. -/
def c4ChartConfig : List (String × JsVal) :=
  [("sales", .obj [("label", .str "Sales")])]

/-- The full C4 witness payload. -/
def c4Fields : List (String × JsVal) :=
  [("chartType", .str "pie"), ("config", .obj c4Config),
   ("data", .arr c4Items), ("chartConfig", .obj c4ChartConfig)]

/-- Witness for C4: the spec example payload satisfies the hypotheses and
normalizes to the reshaped records with `xAxisKey = "segment"`. -/
theorem pie_reshape_c4_witness :
    ∃ r, (processToolResponse (.obj c4Fields)).result = .ok r
      ∧ jsGetD r "data" = .arr (c4Items.map (specPieRecord c4Config c4ChartConfig))
      ∧ jsGetD (jsGetD r "config") "xAxisKey" = .str "segment" :=
  (pie_reshape_c4 c4Fields c4Items c4ChartConfig c4Config
    (by decide) (by decide) (by decide) (by decide) (by decide)).1

/-- C7: the response text is all text blocks joined by a blank line in their
original order; the processed tool invocation is the first block named
`generate_graph_data` when one exists, otherwise the first tool-use block;
and `chartData` is computed from that single selected invocation only. -/
theorem response_assembly_c7 (blocks : List CBlock) :
    (routeTail blocks).content = String.intercalate "\n\n" (textBlocks blocks)
    ∧ (∀ b, (toolUseBlocks blocks).find? isGenGraph = some b →
        selectedToolUse blocks = some b)
    ∧ ((toolUseBlocks blocks).find? isGenGraph = none →
        selectedToolUse blocks = (toolUseBlocks blocks).head?)
    ∧ (routeTail blocks).chartData
      = (match selectedToolUse blocks with
         | some (.toolUse _ _ inp) =>
           (match (processToolResponse inp).result with
            | .ok v => some v
            | .error _ => none)
         | _ => none) := by
  refine ⟨?_, ?_, ?_, ?_⟩
  · unfold routeTail
    cases h : selectedToolUse blocks with
    | none => rfl
    | some b => cases b <;> rfl
  · intro b hb
    unfold selectedToolUse
    rw [hb]
  · intro hb
    unfold selectedToolUse
    rw [hb]
  · unfold routeTail
    cases h : selectedToolUse blocks with
    | none => rfl
    | some b => cases b <;> rfl

/-- The blocks of the C7 witness: two text blocks around two tool calls, the
second of which is the chart generator. -/
def c7Blocks : List CBlock :=
  [.text "Intro.", .toolUse "t1" "other_tool" (.obj []),
   .toolUse "t2" "generate_graph_data" (.obj [("chartType", .str "bar")]),
   .text "Outro."]

/-- Witness for C7: on the concrete block list the content is the joined
text and the chart-generation block wins the selection. -/
theorem response_assembly_c7_witness :
    (routeTail c7Blocks).content = String.intercalate "\n\n" (textBlocks c7Blocks)
    ∧ selectedToolUse c7Blocks
      = some (.toolUse "t2" "generate_graph_data" (.obj [("chartType", .str "bar")])) :=
  ⟨(response_assembly_c7 c7Blocks).1,
   (response_assembly_c7 c7Blocks).2.1 _ (by decide)⟩

/-- C8: whenever the portfolio blob serializes to more than 3000 characters,
the summary embedded in the fused prompt is exactly the first 3000
characters of the serialization (and the summary is bounded by 3000
characters for every blob); the enhanced prompt embeds that summary verbatim
inside the delimited portfolio section. -/
theorem portfolio_truncation_c8 (v : JsVal) (q : String) (icfData perp : JsVal)
    (hv : 3000 < (stockSerialization v).length) :
    stockDataSummary v = strTake (stockSerialization v) 3000
    ∧ (stockDataSummary v).length = 3000
    ∧ (∀ w : JsVal, (stockDataSummary w).length ≤ 3000)
    ∧ buildEnhancedPrompt q v perp icfData
      = "Original Query: " ++ q ++ "\n\n"
        ++ ("---\n**STOCK/PORTFOLIO DATA (Current Holdings & Performance for "
            ++ jsToString (jsOr (jsOptGet icfData "firm_account_name") (.str "Account"))
            ++ " at " ++ jsToString (jsOr (jsOptGet icfData "firm_name") (.str "Firm"))
            ++ "):**\n" ++ strTake (stockSerialization v) 3000 ++ "\n---\n\n")
        ++ (if truthy perp && truthy (jsGetD perp "content") then liveSection perp else "")
        ++ "Please analyze the above query using:\n"
        ++ String.intercalate "\n" (buildInstructions true (truthy perp))
        ++ "\n\nIncorporate all available information into your analysis and visualizations." := by
  have hsum : ∀ w : JsVal, stockDataSummary w = strTake (stockSerialization w) 3000 := by
    intro w
    cases w <;> rfl
  have hlen : ∀ w : JsVal,
      (stockDataSummary w).length = min 3000 (stockSerialization w).length := by
    intro w
    rw [hsum w]
    show ((stockSerialization w).data.take 3000).length = _
    rw [List.length_take]
    rfl
  have htruthy : truthy v = true := by
    cases v with
    | undef => exact absurd hv (by decide)
    | null => exact absurd hv (by decide)
    | bool b =>
      cases b with
      | false => exact absurd hv (by decide)
      | true => rfl
    | num n =>
      by_cases h0 : n = 0
      · subst h0
        exact absurd hv (by decide)
      · simp [truthy, h0]
    | str s =>
      by_cases h0 : s = ""
      · subst h0
        exact absurd hv (by decide)
      · simp [truthy, h0]
    | arr xs => rfl
    | obj fs => rfl
  refine ⟨hsum v, ?_, ?_, ?_⟩
  · rw [hlen v]
    omega
  · intro w
    rw [hlen w]
    omega
  · rw [buildEnhancedPrompt, htruthy]
    simp only [if_true, portfolioSection, hsum v]

/-- The oversized portfolio blob of the C8 witness. -/
def c8Blob : JsVal := .str (String.mk (List.replicate 10000 'x'))

/-- Witness for C8: a 10000-character blob satisfies the size hypothesis and
its prompt summary has exactly 3000 characters. -/
theorem portfolio_truncation_c8_witness :
    3000 < (stockSerialization c8Blob).length
    ∧ (stockDataSummary c8Blob).length = 3000 := by
  have hv : 3000 < (stockSerialization c8Blob).length := by
    show 3000 < (List.replicate 10000 'x').length
    rw [List.length_replicate]
    norm_num
  exact ⟨hv, (portfolio_truncation_c8 c8Blob "q" .null .null hv).2.1⟩

/-- The C10 counterexample payload: one pie record whose only segment
candidate is a falsy-but-present `name: 0`. -/
def c10Fields : List (String × JsVal) :=
  [("chartType", .str "pie"), ("config", .obj []),
   ("data", .arr [.obj [("name", .num 0), ("val", .num 3)]]),
   ("chartConfig", .obj [("val", .obj [("label", .str "V")])])]

/-- Counterexample to C10 as stated: with every segment candidate falsy but
`name` present as `0`, the reshaped `segment` is `0` — the last candidate's
value — not `undefined` as the claim asserts. -/
theorem pie_lookup_c10_counterexample :
    (processToolResponse (.obj c10Fields)).result = .ok (.obj [
      ("chartType", .str "pie"),
      ("config", .obj [("xAxisKey", .str "segment")]),
      ("data", .arr [.obj [("segment", .num 0), ("value", .num 3)]]),
      ("chartConfig", .obj [("val", .obj [("label", .str "V"),
        ("color", .str "hsl(var(--chart-1))")])])])
    ∧ JsVal.num 0 ≠ JsVal.undef := by
  decide

/-- C10 (amended): the two pie lookups are asymmetric — `value` keeps any
non-nullish value (including `0`) found under the first `chartConfig` key
and falls back to the literal `value` field only on null/undefined, while
`segment` skips every falsy candidate and ends at the value of the last
candidate `name` (hence `undefined` only when `name` is absent). -/
theorem pie_lookup_c10_amended (item : JsVal) (vk sk : String)
    (h : nullish item = false) :
    pieMapItem vk sk item = .ok (.obj [
        ("segment", jsOr (jsGetD item sk) (jsOr (jsGetD item "segment")
          (jsOr (jsGetD item "category") (jsGetD item "name")))),
        ("value", if nullish (jsGetD item vk) then jsGetD item "value"
                  else jsGetD item vk)])
    ∧ (jsGetD item vk = .num 0 →
        (if nullish (jsGetD item vk) then jsGetD item "value"
         else jsGetD item vk) = .num 0)
    ∧ (nullish (jsGetD item vk) = true →
        (if nullish (jsGetD item vk) then jsGetD item "value"
         else jsGetD item vk) = jsGetD item "value")
    ∧ (truthy (jsGetD item sk) = false → truthy (jsGetD item "segment") = false →
        truthy (jsGetD item "category") = false →
        jsOr (jsGetD item sk) (jsOr (jsGetD item "segment")
          (jsOr (jsGetD item "category") (jsGetD item "name")))
        = jsGetD item "name") := by
  refine ⟨pieMapItem_eq vk sk item h, ?_, ?_, ?_⟩
  · intro h0
    rw [h0]
    rfl
  · intro h0
    rw [if_pos h0]
  · intro h1 h2 h3
    simp [jsOr, h1, h2, h3]

/-- Witness for the amended C10: a record with `name: 0` and first config
key `0` keeps both zeros — segment from the last falsy candidate, value via
nullish coalescing. -/
theorem pie_lookup_c10_amended_witness :
    pieMapItem "val" "segment" (.obj [("name", .num 0), ("val", .num 0)])
      = .ok (.obj [("segment", .num 0), ("value", .num 0)]) := by
  rw [(pie_lookup_c10_amended (.obj [("name", .num 0), ("val", .num 0)])
    "val" "segment" (by decide)).1]
  decide

/-- The C9 counterexample payload: a well-formed pie tool input. -/
def c9Payload : JsVal := .obj [
  ("chartType", .str "pie"),
  ("config", .obj [("title", .str "T"), ("description", .str "D")]),
  ("data", .arr [.obj [("segment", .str "US"), ("sales", .num 10)]]),
  ("chartConfig", .obj [("sales", .obj [("label", .str "Sales")])])]

/-- The state of the raw tool input after normalization mutated it. -/
def c9Mutated : JsVal := .obj [
  ("chartType", .str "pie"),
  ("config", .obj [("title", .str "T"), ("description", .str "D"),
                   ("xAxisKey", .str "segment")]),
  ("data", .arr [.obj [("segment", .str "US"), ("value", .num 10)]]),
  ("chartConfig", .obj [("sales", .obj [("label", .str "Sales")])])]

/-- Counterexample to C9 as stated: the `toolUse` field echoed to the caller
carries the in-place mutated payload (reshaped `data`, forced `xAxisKey`),
not the model's original input. -/
theorem payload_mutation_c9_counterexample :
    (routeTail [.toolUse "t9" "generate_graph_data" c9Payload]).toolUse
      = some ("t9", "generate_graph_data", c9Mutated)
    ∧ c9Mutated ≠ c9Payload := by
  decide

/-- Either color assignment succeeds and returns the fresh spread-plus-
colorized-chartConfig object, or it throws; the input state is returned
unchanged in both cases. -/
theorem colorPhase_cases (i : JsVal) :
    (∃ j cc, colorPhase i = ⟨j, .ok (.obj (setKey (spreadFields j) "chartConfig" cc))⟩)
    ∨ (∃ j msg, colorPhase i = ⟨j, .error msg⟩) := by
  unfold colorPhase
  cases hc : colorizeChartConfig (jsGetD i "chartConfig") with
  | error e => exact Or.inr ⟨i, _, rfl⟩
  | ok cc => exact Or.inl ⟨i, cc, rfl⟩

/-- Every run of the normalizer either returns `{...mutatedInput,
chartConfig: colorized}` for the final state of the mutated input, or
throws. -/
theorem processToolResponse_shape (inp : JsVal) :
    (∃ j cc, processToolResponse inp
        = ⟨j, .ok (.obj (setKey (spreadFields j) "chartConfig" cc))⟩)
    ∨ (∃ j msg, processToolResponse inp = ⟨j, .error msg⟩) := by
  unfold processToolResponse
  cases hr : repairPhase inp with
  | error msg => exact Or.inr ⟨inp, msg, rfl⟩
  | ok i1 =>
    unfold processAfterRepair
    dsimp only
    split
    · exact Or.inr ⟨_, _, rfl⟩
    · split
      · split
        · split
          · exact Or.inr ⟨_, _, rfl⟩
          · split
            · exact colorPhase_cases _
            · exact Or.inr ⟨_, _, rfl⟩
        · exact Or.inr ⟨_, _, rfl⟩
      · exact colorPhase_cases _

/-- C9 (amended): the normalized payload is constructed once per request,
but the raw invocation's input is mutated in place during normalization, so
the echoed `toolUse` carries the post-normalization state of that object;
the successful normalized payload differs from the echoed input exactly by
its freshly colorized `chartConfig` object. -/
theorem payload_mutation_c9_amended (blocks : List CBlock) (id name : String)
    (inp r : JsVal)
    (hsel : selectedToolUse blocks = some (.toolUse id name inp))
    (hok : (processToolResponse inp).result = .ok r) :
    (routeTail blocks).toolUse
      = some (id, name, (processToolResponse inp).finalInput)
    ∧ r = .obj (setKey (spreadFields (processToolResponse inp).finalInput)
        "chartConfig" (lookupKey (spreadFields r) "chartConfig")) := by
  constructor
  · unfold routeTail
    rw [hsel]
  · rcases processToolResponse_shape inp with ⟨j, cc, heq⟩ | ⟨j, msg, heq⟩
    · rw [heq] at hok
      have hr : r = .obj (setKey (spreadFields j) "chartConfig" cc) :=
        (Except.ok.inj hok).symm
      rw [heq]
      rw [hr]
      rw [show spreadFields (.obj (setKey (spreadFields j) "chartConfig" cc))
          = setKey (spreadFields j) "chartConfig" cc from rfl]
      rw [show (lookupKey (setKey (spreadFields j) "chartConfig" cc) "chartConfig") = cc
        from lookupKey_setKey _ _ _]
    · rw [heq] at hok
      cases hok

/-- Witness for the amended C9: on the concrete pie payload the route echoes
the mutated input and the chart payload is that state with a colorized
`chartConfig`. -/
theorem payload_mutation_c9_amended_witness :
    (routeTail [.toolUse "t9" "generate_graph_data" c9Payload]).toolUse
      = some ("t9", "generate_graph_data",
          (processToolResponse c9Payload).finalInput)
    ∧ (.obj [
        ("chartType", .str "pie"),
        ("config", .obj [("title", .str "T"), ("description", .str "D"),
                         ("xAxisKey", .str "segment")]),
        ("data", .arr [.obj [("segment", .str "US"), ("value", .num 10)]]),
        ("chartConfig", .obj [("sales", .obj [("label", .str "Sales"),
          ("color", .str "hsl(var(--chart-1))")])])] : JsVal)
      = .obj (setKey (spreadFields (processToolResponse c9Payload).finalInput)
          "chartConfig" (lookupKey (spreadFields (.obj [
        ("chartType", .str "pie"),
        ("config", .obj [("title", .str "T"), ("description", .str "D"),
                         ("xAxisKey", .str "segment")]),
        ("data", .arr [.obj [("segment", .str "US"), ("value", .num 10)]]),
        ("chartConfig", .obj [("sales", .obj [("label", .str "Sales"),
          ("color", .str "hsl(var(--chart-1))")])])])) "chartConfig")) :=
  payload_mutation_c9_amended [.toolUse "t9" "generate_graph_data" c9Payload]
    "t9" "generate_graph_data" c9Payload _ (by decide) (by decide)

/-- The conversation of the C6 counterexample. -/
def c6Messages : List Msg := [⟨"user", .str "hi"⟩]

/-- The file attachment of the C6 counterexample. -/
def c6FileData : JsVal := .obj [
  ("base64", .str "QQ=="), ("isText", .bool true),
  ("mediaType", .str "text/plain"), ("fileName", .str "notes.txt")]

/-- Counterexample to C6 as stated: with `includeLiveData = false` but a
text file attached, the conversation handed to the generative call has its
last turn rewritten, so it does not equal the input conversation. -/
theorem no_live_data_c6_counterexample :
    fusedMessages c6Messages c6FileData (.bool false) .null
      (fun _ => .ok "A") (.error ⟨none⟩) (.error ⟨none⟩)
      = .ok [⟨"user", .arr [
          .obj [("type", .str "text"),
                ("text", .str "File contents of notes.txt:\n\nA")],
          .obj [("type", .str "text"), ("text", .str "hi")]]⟩]
    ∧ ([⟨"user", .arr [
          .obj [("type", .str "text"),
                ("text", .str "File contents of notes.txt:\n\nA")],
          .obj [("type", .str "text"), ("text", .str "hi")]]⟩] : List Msg)
      ≠ c6Messages := by
  decide

/-- C6 (amended): for every valid request with falsy `includeLiveData` and
no file attachment, the conversation passed to the generative invocation
equals the input conversation unchanged and neither supplementary fetch is
attempted; a file attachment may still rewrite the last turn independently
of the live-data flag. -/
theorem no_live_data_c6_amended (messages : List Msg) (fd ild icf : JsVal)
    (decodeFile : String → Except Unit String)
    (stockFetch perplexityFetch : Except JsError JsVal)
    (hild : truthy ild = false) (hfd : truthy fd = false) :
    fusedMessages messages fd ild icf decodeFile stockFetch perplexityFetch
      = .ok messages
    ∧ stockAttempted ild icf = false
    ∧ perpAttempted ild messages = .ok false := by
  have hmap : messages.map (fun m => Msg.mk m.role m.content) = messages := by
    have : (fun m : Msg => Msg.mk m.role m.content) = id := funext fun m => rfl
    rw [this, List.map_id]
  refine ⟨?_, ?_, ?_⟩
  · unfold fusedMessages
    rw [hfd, hild]
    simp [hmap, stockAttempted, hild, Except.bind, bind, ite_self]
  · simp [stockAttempted, hild]
  · simp [perpAttempted, hild]

/-- Witness for the amended C6: a concrete flagless request passes through
unchanged with no fetch attempted. -/
theorem no_live_data_c6_amended_witness :
    fusedMessages [⟨"user", .str "hello"⟩] .undef (.bool false) .null
      (fun _ => .error ()) (.error ⟨some 500⟩) (.error ⟨some 503⟩)
      = .ok [⟨"user", .str "hello"⟩]
    ∧ stockAttempted (.bool false) .null = false
    ∧ perpAttempted (.bool false) [⟨"user", .str "hello"⟩] = .ok false :=
  no_live_data_c6_amended [⟨"user", .str "hello"⟩] .undef (.bool false) .null
    (fun _ => .error ()) (.error ⟨some 500⟩) (.error ⟨some 503⟩)
    (by decide) (by decide)

/-- The context identifiers of the C5 counterexample (complete, so the
portfolio fetch is attempted). -/
def c5Icf : JsVal := .obj [
  ("firm_name", .str "F"), ("client_id", .num 1),
  ("investment_banker_id", .num 2)]

/-- The tool input of the C5 counterexample model response. -/
def c5BarInput : JsVal := .obj [
  ("chartType", .str "bar"),
  ("config", .obj [("title", .str "T"), ("description", .str "D")]),
  ("data", .arr [.obj [("month", .str "Jan"), ("sales", .num 10)]]),
  ("chartConfig", .obj [("sales", .obj [("label", .str "Sales")])])]

/-- The C5 counterexample model response: one tool call, no text blocks. -/
def c5Blocks : List CBlock := [.toolUse "t5" "generate_graph_data" c5BarInput]

/-- Counterexample to C5 as stated: with both supplementary fetches failing
and the generative call succeeding with a tool-only response, the request
succeeds (status 200) but `content` is the empty string — not non-empty as
the claim asserts. -/
theorem fetch_failure_c5_counterexample :
    financePost [⟨"user", .str "chart please"⟩] .undef (.str "model-x")
      (.bool true) c5Icf (fun _ => .error ())
      (.error ⟨some 500⟩) (.error ⟨some 503⟩) (fun _ => .ok c5Blocks)
      = .success (routeTail c5Blocks)
    ∧ (routeTail c5Blocks).status = 200
    ∧ (routeTail c5Blocks).content = "" := by
  decide

/-- C5 (amended): when both supplementary fetches fail (and no file is
attached), the pipeline still invokes the generative step with the original,
unaugmented conversation, and — whenever the generative call succeeds — the
response is a 200 whose `content` equals the model's concatenated text
blocks (so it is empty exactly when the model emitted no non-empty text
block). -/
theorem fetch_failure_c5_amended (messages : List Msg) (model icf ild : JsVal)
    (q : String) (e1 e2 : JsError) (decodeFile : String → Except Unit String)
    (modelCall : List Msg → Except JsError (List CBlock)) (blocks : List CBlock)
    (hm : truthy model = true)
    (hq : extractQuery messages = .ok q)
    (hmc : modelCall messages = .ok blocks) :
    fusedMessages messages .undef ild icf decodeFile (.error e1) (.error e2)
      = .ok messages
    ∧ financePost messages .undef model ild icf decodeFile
        (.error e1) (.error e2) modelCall
      = .success (routeTail blocks)
    ∧ (routeTail blocks).status = 200
    ∧ (routeTail blocks).content = String.intercalate "\n\n" (textBlocks blocks) := by
  have hmapeta : messages.map (fun m => Msg.mk m.role m.content) = messages := by
    have : (fun m : Msg => Msg.mk m.role m.content) = id := funext fun m => rfl
    rw [this, List.map_id]
  have hfused : fusedMessages messages .undef ild icf decodeFile
      (.error e1) (.error e2) = .ok messages := by
    unfold fusedMessages
    simp only [truthy, Bool.false_eq_true, if_false, hmapeta, ite_self,
      Except.bind, bind]
    simp only [or_self, and_false, if_false, hq, Except.mapError, ite_self]
  have hstatus : (routeTail blocks).status = 200 := by
    unfold routeTail
    cases h : selectedToolUse blocks with
    | none => rfl
    | some b => cases b <;> rfl
  refine ⟨hfused, ?_, hstatus, ?_⟩
  · unfold financePost
    rw [hm]
    simp only [not_true, if_false, hfused, hmc]
  · unfold routeTail
    cases h : selectedToolUse blocks with
    | none => rfl
    | some b => cases b <;> rfl

/-- Witness for the amended C5: both fetches fail on a concrete request, the
model answers with one text block, and the content is that text. -/
theorem fetch_failure_c5_amended_witness :
    fusedMessages [⟨"user", .str "hello"⟩] .undef (.bool true) .null
      (fun _ => .error ()) (.error ⟨some 500⟩) (.error ⟨some 503⟩)
      = .ok [⟨"user", .str "hello"⟩]
    ∧ financePost [⟨"user", .str "hello"⟩] .undef (.str "model-x") (.bool true)
        .null (fun _ => .error ()) (.error ⟨some 500⟩) (.error ⟨some 503⟩)
        (fun _ => .ok [.text "Answer"])
      = .success (routeTail [.text "Answer"])
    ∧ (routeTail [.text "Answer"]).status = 200
    ∧ (routeTail [.text "Answer"]).content
      = String.intercalate "\n\n" (textBlocks [.text "Answer"]) :=
  fetch_failure_c5_amended [⟨"user", .str "hello"⟩] (.str "model-x") .null
    (.bool true) "hello" ⟨some 500⟩ ⟨some 503⟩ (fun _ => .error ())
    (fun _ => .ok [.text "Answer"]) [.text "Answer"]
    (by decide) (by decide) (by decide)

end FinancePipeline
